import Mathlib

set_option maxHeartbeats 1000000

/-!
Shallow embedding of the dpi tool (cmd/root.go): format detection,
file resolution, staging-directory lifecycle, table materialization,
the interactive launch and the signal-aware cleanup. The filesystem,
the glob expander and the subprocess outcomes are passed in as an
explicit environment; a run is embedded as the list of observable
process-level events it produces, in order. Progress prints to stdout
carry no information the properties need and are omitted from traces.
-/

namespace Dpi

/-- The single-quote character, U+0027. -/
def quoteChar : Char := Char.ofNat 39

/-- The one-character string holding a single quote. -/
def sq : String := String.singleton quoteChar

/-- FileFormat is a Go string type; constant Parquet = "parquet". -/
def Parquet : String := "parquet"

/-- FileFormat constant CSV = "csv". The empty string denotes an unsupported format. -/
def CSV : String := "csv"

/-- TableName constant, "p" for preview. -/
def TableName : String := "p"

/-- Embedding of filepath.Ext on Linux: scan the path backwards; stop with the
suffix starting at the first dot met, with the empty string at the first slash
or at the start of the path. The first argument is the still-unscanned part of
the path, reversed; the second collects the characters already passed. -/
def goExtAux : List Char → List Char → String
  | [], _ => ""
  | c :: rest, acc =>
    if c = '/' then ""
    else if c = '.' then String.mk (c :: acc)
    else goExtAux rest (c :: acc)

/-- filepath.Ext of a path. -/
def goExt (path : String) : String := goExtAux path.data.reverse []

/-- Lowering of one character as strings.ToLower performs it on ASCII letters.
Go applies the full Unicode simple mapping; the two agree on every character
whose lowercase form occurs in ".parquet", ".csv" or ".gz" (the only
non-ASCII characters with an ASCII simple lowercase form are U+0130 and
U+212A, which lower to i and k, letters none of the three extensions use),
so determineFileFormat below is unchanged by this restriction. -/
def goToLowerChar (c : Char) : Char :=
  if 65 ≤ c.toNat ∧ c.toNat ≤ 90 then Char.ofNat (c.toNat + 32) else c

/-- strings.ToLower of a string, characterwise. -/
def goToLower (s : String) : String := String.mk (s.data.map goToLowerChar)

/-- determineFileFormat from root.go: switch on the lowercased extension;
".parquet" is Parquet, ".csv" and ".gz" are CSV, anything else is the empty
string marking an unsupported format. -/
def determineFileFormat (filename : String) : String :=
  let ext := goExt filename
  if goToLower ext = ".parquet" then Parquet
  else if goToLower ext = ".csv" ∨ goToLower ext = ".gz" then CSV
  else ""

/-- Outcome of os.Stat as far as fileExists inspects it: success, the
does-not-exist error recognized by os.IsNotExist, or any other error
(permission denied and the like). -/
inductive StatResult
  | ok
  | errNotExist
  | errOther
deriving DecidableEq

/-- os.IsNotExist on the stat outcome (false on a nil error). -/
def goIsNotExist : StatResult → Bool
  | .errNotExist => true
  | _ => false

/-- fileExists from root.go: stat the file and report true unless the error is
specifically the does-not-exist error. -/
def fileExists (stat : String → StatResult) (filename : String) : Bool :=
  !(goIsNotExist (stat filename))

/-- Error message built by findParquetFiles around filepath.ErrBadPattern,
whose text is "syntax error in pattern". -/
def badPatternMsg (pattern : String) : String :=
  "invalid file pattern " ++ sq ++ pattern ++ sq ++ ": syntax error in pattern"

/-- findParquetFiles from root.go: filepath.Glob, wrapping its only possible
error ErrBadPattern; the matches come back in expansion order. The glob
expander is the environment argument. -/
def findParquetFiles (glob : String → Except Unit (List String)) (pattern : String) :
    Except String (List String) :=
  match glob pattern with
  | .error _ => .error (badPatternMsg pattern)
  | .ok files => .ok files

/-- The quoting both branches of processInputFiles apply to one path:
a single quote, the path verbatim, a single quote (written inline in the
source as a three-part string concatenation). -/
def quotePath (f : String) : String := sq ++ f ++ sq

/-- processInputFiles from root.go: for Parquet, expand the pattern, fail on
a bad pattern or on zero matches, and join the individually quoted matches
with commas in expansion order; for every other format, require the literal
path to exist and return it quoted, with no expansion. -/
def processInputFiles (glob : String → Except Unit (List String))
    (stat : String → StatResult) (filePath : String) (fileFormat : String) :
    Except String String :=
  if fileFormat = Parquet then
    match findParquetFiles glob filePath with
    | .error e => .error e
    | .ok files =>
      if files.length = 0 then
        .error ("no Parquet files found matching pattern: " ++ filePath)
      else
        .ok (String.intercalate "," (files.map quotePath))
  else
    if !(fileExists stat filePath) then
      .error ("file does not exist: " ++ filePath)
    else
      .ok (quotePath filePath)

/-- Result of one subprocess run via exec.Command(...).Run(): the spawn
failed with some message, or the child ran and exited with the given code. -/
inductive ExecResult
  | spawnFailure (msg : String)
  | exited (code : Nat)
deriving DecidableEq

/-- The error value cmd.Run reports (none is a nil error): a spawn failure
surfaces its message, a nonzero exit surfaces the exit status, exit 0 is nil. -/
def runResult : ExecResult → Option String
  | .spawnFailure m => some m
  | .exited 0 => none
  | .exited (n + 1) => some ("exit status " ++ toString (n + 1))

/-- executeCommand from root.go: reject an empty argument vector, otherwise
run the command with the streams wired through and return the Run error. -/
def executeCommand (exec : List String → ExecResult) (args : List String) : Option String :=
  if args.length = 0 then some ("no command provided")
  else runResult (exec args)

/-- Rendering of a Go bool by the %v verb. -/
def goBoolString (b : Bool) : String := if b then "true" else "false"

/-- The load statement built for the Parquet format. -/
def parquetQuery (filename : String) : String :=
  "CREATE TABLE " ++ TableName ++ " AS SELECT * FROM read_parquet([" ++ filename ++ "]);"

/-- The load statement built for the CSV format, with the strict-mode option. -/
def csvQuery (filename : String) (strict : Bool) : String :=
  "CREATE TABLE " ++ TableName ++ " AS SELECT * FROM read_csv(" ++ filename ++
    ", strict_mode=" ++ goBoolString strict ++ ");"

/-- Name of the generated database file inside the staging directory. -/
def duckdbFileName : String := "tmp.duckdb"

/-- filepath.Join of the staging directory and a file name; on the nonempty,
clean, slash-free directory names os.MkdirTemp produces, Join is plain
concatenation with one separator. -/
def joinPath (dir name : String) : String := dir ++ "/" ++ name

/-- The argument vector of the one-shot materialization subprocess. -/
def loadCmd (tempDir query : String) : List String :=
  ["duckdb", joinPath tempDir duckdbFileName, "-c", query]

/-- The argument vector of the interactive session subprocess. -/
def interactiveCmd (tempDir : String) : List String :=
  ["duckdb", joinPath tempDir duckdbFileName]

/-- createTemporaryTable from root.go: build the format-appropriate load
statement, run it once as a one-shot subprocess against tmp.duckdb inside the
staging directory, and wrap any failure. The second component records the
executeCommand invocations performed, in order. -/
def createTemporaryTable (exec : List String → ExecResult) (filename : String)
    (tempDir : String) (fileFormat : String) (strict : Bool) :
    Option String × List (List String) :=
  let buildQuery : Except String String :=
    if fileFormat = Parquet then .ok (parquetQuery filename)
    else if fileFormat = CSV then .ok (csvQuery filename strict)
    else .error ("unsupported file format: " ++ fileFormat)
  match buildQuery with
  | .error e => (some e, [])
  | .ok query =>
    let cmds := loadCmd tempDir query
    match executeCommand exec cmds with
    | some e => (some ("failed to create temporary table: " ++ e), [cmds])
    | none => (none, [cmds])

/-- Observable process-level events of one run, in order. -/
inductive Event
  | createTempDir (dir : String)
  | execCall (argv : List String)
  | removeAllTempDir (dir : String)
  | stderrLine (line : String)
  | exitProcess (code : Nat)
deriving DecidableEq

/-- exitWithError from root.go: print the message to stderr and call
os.Exit(1). os.Exit terminates the process at once; deferred functions do
not run, so no event can follow these two. -/
def exitWithError (msg : String) : List Event :=
  [.stderrLine ("Error: " ++ msg), .exitProcess 1]

/-- The external world of one run: the glob expander, the stat outcomes, the
os.MkdirTemp outcome, the subprocess outcomes keyed by argument vector, and
the signal number when a registered signal arrives during the run (none when
no signal arrives before the deferred cleanup checks the flag). -/
structure Env where
  glob : String → Except Unit (List String)
  stat : String → StatResult
  mkdirTemp : Except String String
  exec : List String → ExecResult
  signal : Option Nat

/-- The cleanup closure setupSignalHandler returns, run deferred: when the
atomic flag records a received signal it prints a line and calls
os.Exit(130) whatever the signal was; otherwise it does nothing. -/
def signalCleanup (signalReceived : Bool) : List Event :=
  if signalReceived then
    [.stderrLine ("Cleanup completed, exiting"), .exitProcess 130]
  else []

/-- runCommand from root.go as the full event trace of the process. Deferred
functions run in LIFO order on a normal return, so os.RemoveAll runs first
and the signal cleanup after it; every error path goes through exitWithError,
whose os.Exit(1) skips both deferred functions. A trace without an
exitProcess event means runCommand returned normally with no signal pending
(see fullRun). -/
def runCommand (env : Env) (filePath : String) (strict : Bool) : List Event :=
  let fileFormat := determineFileFormat filePath
  if fileFormat = "" then
    exitWithError ("Unsupported file format for file: " ++ filePath)
  else
    match env.mkdirTemp with
    | .error e => exitWithError ("Failed to create temporary directory: " ++ e)
    | .ok tempDir =>
      Event.createTempDir tempDir ::
      (match processInputFiles env.glob env.stat filePath fileFormat with
       | .error e => exitWithError e
       | .ok filename =>
         match createTemporaryTable env.exec filename tempDir fileFormat strict with
         | (some e, calls) =>
           calls.map Event.execCall ++
             exitWithError ("Creating temporary table failed: " ++ e)
         | (none, calls) =>
           calls.map Event.execCall ++
             (Event.execCall (interactiveCmd tempDir) ::
              (match executeCommand env.exec (interactiveCmd tempDir) with
               | some e => exitWithError ("Failed to execute DuckDB: " ++ e)
               | none =>
                 Event.removeAllTempDir tempDir :: signalCleanup env.signal.isSome)))

/-- Is this event a process exit. -/
def isExit : Event → Bool
  | .exitProcess _ => true
  | _ => false

/-- Does the trace contain a process exit. -/
def hasExit (t : List Event) : Bool := t.any isExit

/-- Modelled from the spec: the main entrypoint (main.go, not among the staged
sources) calls cmd.Execute, which runs runCommand; when runCommand returns
without the process having exited, the process leaves main and terminates
normally with status 0 (spec: 0 on normal success). -/
def fullRun (env : Env) (filePath : String) (strict : Bool) : List Event :=
  let t := runCommand env filePath strict
  if hasExit t then t else t ++ [Event.exitProcess 0]

/-- The exit code an event carries, if any. -/
def exitCodeOf : Event → Option Nat
  | .exitProcess c => some c
  | _ => none

/-- The exit codes occurring in a trace, in order (every complete trace has
exactly one). -/
def exitCodes (t : List Event) : List Nat := t.filterMap exitCodeOf

/-- Is this event the creation of the staging directory. -/
def isCreateDir : Event → Bool
  | .createTempDir _ => true
  | _ => false

/-- Did the run create the staging directory. -/
def tempDirCreated (t : List Event) : Bool := t.any isCreateDir

/-- Is this event the deferred os.RemoveAll running. -/
def isRemoveAll : Event → Bool
  | .removeAllTempDir _ => true
  | _ => false

/-- Did the deferred os.RemoveAll run. -/
def removeAllRan (t : List Event) : Bool := t.any isRemoveAll

/-- The argument vector an event carries, if it is a subprocess call. -/
def argvOf : Event → Option (List String)
  | .execCall a => some a
  | _ => none

/-- The subprocess invocations of a trace, in order. -/
def execArgvs (t : List Event) : List (List String) := t.filterMap argvOf

/-- The flag shared between the signal-listener goroutine and the deferred
cleanup (false is Idle, true is SignalReceived), together with whether the
goroutine is still blocked reading the channel. -/
structure SignalState where
  received : Bool
  waiting : Bool
deriving DecidableEq

/-- State at the start of a run: Idle, listener blocked on the channel. -/
def initialSignalState : SignalState := ⟨false, true⟩

/-- The stderr notice the listener prints for signal number sig (the source
renders the signal value with %v; the number stands in for that rendering). -/
def signalNotice (sig : Nat) : String :=
  "Received signal " ++ toString sig ++ ", waiting for DuckDB to exit..."

/-- Delivery of one registered signal (interrupt or SIGTERM): while the
goroutine is blocked on the channel it receives the signal, stores true in
the atomic flag, prints the notice and returns — deliberately neither exiting
the process nor looping; once it has returned, further signals change
nothing. -/
def listenerStep (s : SignalState) (sig : Nat) : SignalState × List Event :=
  if s.waiting then (⟨true, false⟩, [Event.stderrLine (signalNotice sig)])
  else (s, [])

/-- The listener over a whole arrival sequence, from a given state. -/
def runListenerFrom (s : SignalState) : List Nat → SignalState × List Event
  | [] => (s, [])
  | sig :: rest =>
    let r := listenerStep s sig
    let k := runListenerFrom r.1 rest
    (k.1, r.2 ++ k.2)

/-- The listener over a whole arrival sequence, from the initial state. -/
def runListener (sigs : List Nat) : SignalState × List Event :=
  runListenerFrom initialSignalState sigs

/-- The state sequence the listener passes through, from a given state. -/
def statesFrom (s : SignalState) : List Nat → List SignalState
  | [] => [s]
  | sig :: rest => s :: statesFrom (listenerStep s sig).1 rest

/-- The state sequence of a run, from the initial state. -/
def listenerStates (sigs : List Nat) : List SignalState :=
  statesFrom initialSignalState sigs

/-- Number of Idle to SignalReceived transitions along a state sequence. -/
def risingTransitions : List SignalState → Nat
  | a :: b :: rest =>
    (if a.received = false ∧ b.received = true then 1 else 0) +
      risingTransitions (b :: rest)
  | _ => 0

/-- Number of SignalReceived to Idle transitions along a state sequence. -/
def fallingTransitions : List SignalState → Nat
  | a :: b :: rest =>
    (if a.received = true ∧ b.received = false then 1 else 0) +
      fallingTransitions (b :: rest)
  | _ => 0

/-- Characters of the SQL single-quoted literal that correctly denotes a
string: every embedded single quote doubled. This definition follows the
claim wording (a correctly delimited quoted literal), for comparison with
the verbatim quoting the code performs. -/
def sqlEscape : List Char → List Char
  | [] => []
  | c :: rest =>
    if c = quoteChar then c :: c :: sqlEscape rest else c :: sqlEscape rest

/-- The correctly delimited single-quoted SQL literal for a path, as a
character list: quote, escaped body, quote. -/
def sqlQuotedLiteral (s : String) : List Char :=
  quoteChar :: (sqlEscape s.data ++ [quoteChar])

/-! Concrete environments used by counterexamples and witnesses. -/

/-- A subprocess world where every spawn succeeds and every child exits 0. -/
def okExec : List String → ExecResult := fun _ => ExecResult.exited 0

/-- A run on a missing delimited file: every stat reports does-not-exist,
the staging directory is creatable, no signal arrives. -/
def envMissingCsv : Env :=
  ⟨fun _ => Except.ok [], fun _ => StatResult.errNotExist,
   Except.ok ("/tmp/dpi123"), okExec, none⟩

/-- A run where the one-shot materialization subprocess (argument vector of
length four) exits 1 and everything else succeeds. -/
def envLoadFail : Env :=
  ⟨fun _ => Except.ok (["data.parquet"]), fun _ => StatResult.ok,
   Except.ok ("/tmp/dpi123"),
   fun args => if args.length = 4 then ExecResult.exited 1 else ExecResult.exited 0,
   none⟩

/-- A run where the interactive subprocess (argument vector of length two)
cannot be spawned and everything else succeeds. -/
def envLaunchFail : Env :=
  ⟨fun _ => Except.ok (["data.parquet"]), fun _ => StatResult.ok,
   Except.ok ("/tmp/dpi123"),
   fun args => if args.length = 2 then ExecResult.spawnFailure ("spawn failed")
               else ExecResult.exited 0,
   none⟩

/-- A fully successful run during which SIGTERM (signal 15) arrives. -/
def envSigterm : Env :=
  ⟨fun _ => Except.ok (["data.parquet"]), fun _ => StatResult.ok,
   Except.ok ("/tmp/dpi123"), okExec, some 15⟩

/-- A fully successful run during which an interrupt (signal 2) arrives. -/
def envInterrupt : Env :=
  ⟨fun _ => Except.ok (["data.parquet"]), fun _ => StatResult.ok,
   Except.ok ("/tmp/dpi123"), okExec, some 2⟩

/-! Branch lemmas for runCommand, shared by the claim theorems. -/

theorem runCommand_unsupported (env : Env) (p : String) (strict : Bool)
    (h : determineFileFormat p = "") :
    runCommand env p strict =
      exitWithError ("Unsupported file format for file: " ++ p) := by
  simp [runCommand, h]

theorem runCommand_mkdirFail (env : Env) (p f e : String) (strict : Bool)
    (hf : determineFileFormat p = f) (hne : f ≠ "")
    (hmk : env.mkdirTemp = Except.error e) :
    runCommand env p strict =
      exitWithError ("Failed to create temporary directory: " ++ e) := by
  simp [runCommand, hf, hne, hmk]

theorem runCommand_resolveFail (env : Env) (p f : String) (strict : Bool)
    (dir e : String)
    (hf : determineFileFormat p = f) (hne : f ≠ "")
    (hmk : env.mkdirTemp = Except.ok dir)
    (hpi : processInputFiles env.glob env.stat p f = Except.error e) :
    runCommand env p strict = Event.createTempDir dir :: exitWithError e := by
  simp [runCommand, hf, hne, hmk, hpi]

theorem runCommand_loadFail (env : Env) (p f : String) (strict : Bool)
    (dir fn e : String) (calls : List (List String))
    (hf : determineFileFormat p = f) (hne : f ≠ "")
    (hmk : env.mkdirTemp = Except.ok dir)
    (hpi : processInputFiles env.glob env.stat p f = Except.ok fn)
    (hct : createTemporaryTable env.exec fn dir f strict = (some e, calls)) :
    runCommand env p strict =
      Event.createTempDir dir ::
        (calls.map Event.execCall ++
          exitWithError ("Creating temporary table failed: " ++ e)) := by
  simp [runCommand, hf, hne, hmk, hpi, hct]

theorem runCommand_launchFail (env : Env) (p f : String) (strict : Bool)
    (dir fn e : String) (calls : List (List String))
    (hf : determineFileFormat p = f) (hne : f ≠ "")
    (hmk : env.mkdirTemp = Except.ok dir)
    (hpi : processInputFiles env.glob env.stat p f = Except.ok fn)
    (hct : createTemporaryTable env.exec fn dir f strict = (none, calls))
    (hex : executeCommand env.exec (interactiveCmd dir) = some e) :
    runCommand env p strict =
      Event.createTempDir dir ::
        (calls.map Event.execCall ++
          (Event.execCall (interactiveCmd dir) ::
            exitWithError ("Failed to execute DuckDB: " ++ e))) := by
  simp [runCommand, hf, hne, hmk, hpi, hct, hex]

theorem runCommand_success (env : Env) (p f : String) (strict : Bool)
    (dir fn : String) (calls : List (List String))
    (hf : determineFileFormat p = f) (hne : f ≠ "")
    (hmk : env.mkdirTemp = Except.ok dir)
    (hpi : processInputFiles env.glob env.stat p f = Except.ok fn)
    (hct : createTemporaryTable env.exec fn dir f strict = (none, calls))
    (hex : executeCommand env.exec (interactiveCmd dir) = none) :
    runCommand env p strict =
      Event.createTempDir dir ::
        (calls.map Event.execCall ++
          (Event.execCall (interactiveCmd dir) ::
            (Event.removeAllTempDir dir :: signalCleanup env.signal.isSome))) := by
  simp [runCommand, hf, hne, hmk, hpi, hct, hex]

theorem createTemporaryTable_parquet (exec : List String → ExecResult)
    (fn dir : String) (strict : Bool) :
    createTemporaryTable exec fn dir Parquet strict =
      (Option.map (fun e => "failed to create temporary table: " ++ e)
         (runResult (exec (loadCmd dir (parquetQuery fn)))),
       [loadCmd dir (parquetQuery fn)]) := by
  cases h : runResult (exec (["duckdb", joinPath dir duckdbFileName, "-c", parquetQuery fn])) <;>
    simp [createTemporaryTable, executeCommand, loadCmd, h]

theorem createTemporaryTable_csv (exec : List String → ExecResult)
    (fn dir : String) (strict : Bool) :
    createTemporaryTable exec fn dir CSV strict =
      (Option.map (fun e => "failed to create temporary table: " ++ e)
         (runResult (exec (loadCmd dir (csvQuery fn strict)))),
       [loadCmd dir (csvQuery fn strict)]) := by
  cases h : runResult (exec (["duckdb", joinPath dir duckdbFileName, "-c", csvQuery fn strict])) <;>
    simp [createTemporaryTable, CSV, Parquet, executeCommand, loadCmd, h]

theorem hasExit_execCalls (calls : List (List String)) :
    hasExit (calls.map Event.execCall) = false := by
  induction calls with
  | nil => rfl
  | cons a l ih =>
    simp only [hasExit, List.map_cons, List.any_cons] at ih ⊢
    simp [isExit, ih]

theorem exitCodes_execCalls (calls : List (List String)) :
    exitCodes (calls.map Event.execCall) = [] := by
  induction calls with
  | nil => rfl
  | cons a l ih =>
    simp only [exitCodes, List.map_cons, List.filterMap_cons] at ih ⊢
    simp [exitCodeOf, ih]

theorem hasExit_append (s t : List Event) :
    hasExit (s ++ t) = (hasExit s || hasExit t) := by
  simp [hasExit]

theorem exitCodes_append (s t : List Event) :
    exitCodes (s ++ t) = exitCodes s ++ exitCodes t := by
  simp [exitCodes]

/-- Claim C4: format detection is a pure, deterministic, case-insensitive
function of the extension of the path: an extension lowering to ".parquet"
yields Parquet, one lowering to ".csv" or to ".gz" yields CSV, every other
extension yields the unsupported marker; the result depends only on the
lowercased extension; and the caller treats the unsupported marker as a
fatal, user-visible error (message on stderr, exit status 1). -/
theorem detect_format_spec :
    (∀ p : String, goToLower (goExt p) = ".parquet" → determineFileFormat p = Parquet) ∧
    (∀ p : String, goToLower (goExt p) = ".csv" ∨ goToLower (goExt p) = ".gz" →
      determineFileFormat p = CSV) ∧
    (∀ p : String, goToLower (goExt p) ≠ ".parquet" → goToLower (goExt p) ≠ ".csv" →
      goToLower (goExt p) ≠ ".gz" → determineFileFormat p = "") ∧
    (∀ p q : String, goToLower (goExt p) = goToLower (goExt q) →
      determineFileFormat p = determineFileFormat q) ∧
    (∀ (env : Env) (p : String) (strict : Bool), determineFileFormat p = "" →
      fullRun env p strict =
        [Event.stderrLine ("Error: Unsupported file format for file: " ++ p),
         Event.exitProcess 1]) := by
  refine ⟨fun p h => by simp [determineFileFormat, h],
          fun p h => by rcases h with h | h <;> simp [determineFileFormat, h],
          fun p h1 h2 h3 => by simp [determineFileFormat, h1, h2, h3],
          fun p q h => by simp only [determineFileFormat]; rw [h],
          fun env p strict h => ?_⟩
  have hrc := runCommand_unsupported env p strict h
  simp only [fullRun, hrc, exitWithError, hasExit, isExit, List.any_cons, List.any_nil,
    Bool.false_or, Bool.or_false, Bool.or_true, if_true]
  rw [← String.append_assoc]
  rfl

/-- Witness for C4 at concrete inputs: an uppercase Parquet extension, a
mixed-case csv extension, a gz extension, an unrecognized extension, and the
fatal-error behavior of the caller on the latter. -/
theorem detect_format_spec_witness :
    determineFileFormat "Data.PARQUET" = Parquet ∧
    determineFileFormat "a.Csv" = CSV ∧
    determineFileFormat "b.GZ" = CSV ∧
    determineFileFormat "a.txt" = "" ∧
    determineFileFormat "A.TXT" = determineFileFormat "a.txt" ∧
    fullRun envMissingCsv "a.txt" false =
      [Event.stderrLine ("Error: Unsupported file format for file: a.txt"),
       Event.exitProcess 1] :=
  ⟨detect_format_spec.1 "Data.PARQUET" (by decide),
   detect_format_spec.2.1 "a.Csv" (Or.inl (by decide)),
   detect_format_spec.2.1 "b.GZ" (Or.inr (by decide)),
   detect_format_spec.2.2.1 "a.txt" (by decide) (by decide) (by decide),
   detect_format_spec.2.2.2.1 "A.TXT" "a.txt" (by decide),
   detect_format_spec.2.2.2.2 envMissingCsv "a.txt" false (by decide)⟩

/-- Claim C1 (code bug): the removal of the staging directory does NOT run on
every exit path. Every early-return error path goes through exitWithError,
whose os.Exit(1) skips the deferred os.RemoveAll: on the resolution-failure,
materialization-failure and interactive-launch-failure paths the staging
directory has been created, the process exits 1, and the deferred removal
never runs, although the source comments say the defer is there to clean up
even when interrupted. -/
theorem errorExit_skips_removeAll :
    (tempDirCreated (fullRun envMissingCsv "missing.csv" false) = true ∧
     removeAllRan (fullRun envMissingCsv "missing.csv" false) = false ∧
     exitCodes (fullRun envMissingCsv "missing.csv" false) = [1]) ∧
    (tempDirCreated (fullRun envLoadFail "data.parquet" false) = true ∧
     removeAllRan (fullRun envLoadFail "data.parquet" false) = false ∧
     exitCodes (fullRun envLoadFail "data.parquet" false) = [1]) ∧
    (tempDirCreated (fullRun envLaunchFail "data.parquet" false) = true ∧
     removeAllRan (fullRun envLaunchFail "data.parquet" false) = false ∧
     exitCodes (fullRun envLaunchFail "data.parquet" false) = [1]) :=
  ⟨⟨rfl, rfl, rfl⟩, ⟨rfl, rfl, rfl⟩, ⟨rfl, rfl, rfl⟩⟩

/-- Counterexample to C2: on the missing-CSV run the staging directory IS
created (creation precedes resolution in runCommand), refuting the clause
that no staging directory is ever created during that run. -/
theorem stagingDir_created_on_missing_csv :
    tempDirCreated (fullRun envMissingCsv "missing.csv" false) = true ∧
    exitCodes (fullRun envMissingCsv "missing.csv" false) = [1] := ⟨rfl, rfl⟩

/-- Claim C2 as amended: for a delimited-format input path whose stat reports
does-not-exist, the staging directory is created first, then resolution fails
with the not-found error and the process exits with status 1 and that
descriptive message on stderr (and, the exit skipping the deferred cleanup,
the already-created staging directory is not removed). -/
theorem missing_csv_run_spec (env : Env) (p : String) (strict : Bool) (dir : String)
    (hf : determineFileFormat p = CSV)
    (hmk : env.mkdirTemp = Except.ok dir)
    (hstat : env.stat p = StatResult.errNotExist) :
    fullRun env p strict =
      [Event.createTempDir dir,
       Event.stderrLine ("Error: file does not exist: " ++ p),
       Event.exitProcess 1] := by
  have hpi : processInputFiles env.glob env.stat p CSV =
      Except.error ("file does not exist: " ++ p) := by
    simp [processInputFiles, CSV, Parquet, fileExists, goIsNotExist, hstat]
  have hrc := runCommand_resolveFail env p CSV strict dir
    ("file does not exist: " ++ p) hf (by decide) hmk hpi
  simp only [fullRun, hrc, exitWithError, hasExit, isExit, List.any_cons, List.any_nil,
    Bool.false_or, Bool.or_false, Bool.or_true, if_true]
  rw [← String.append_assoc]
  rfl

/-- Witness for C2: the concrete missing-CSV run produces exactly the
created-directory event, the not-found message and the exit with status 1. -/
theorem missing_csv_run_spec_witness :
    fullRun envMissingCsv "missing.csv" false =
      [Event.createTempDir ("/tmp/dpi123"),
       Event.stderrLine ("Error: file does not exist: missing.csv"),
       Event.exitProcess 1] :=
  missing_csv_run_spec envMissingCsv "missing.csv" false ("/tmp/dpi123")
    (by decide) rfl rfl

/-- Counterexample to C3: a fully successful run during which SIGTERM
(signal 15) arrives exits with status 130, not with 128 + 15 = 143. -/
theorem sigterm_exits_130_not_143 :
    exitCodes (fullRun envSigterm "data.parquet" false) = [130] ∧
    (130 : Nat) ≠ 128 + 15 := ⟨rfl, by decide⟩

/-- Claim C3 as amended: the process exit status is 0 on normal success; 1 on
any detected fatal error (unsupported format, failed directory creation,
resolution failure, materialization failure, spawn or launch failure); and
130 — for every registered signal, interrupt and SIGTERM alike, not
128 + the signal number — when termination was signal-driven, emitted only
after the deferred removal of the staging directory has already run. -/
theorem exit_codes_spec :
    (∀ (env : Env) (p f : String) (strict : Bool) (dir fn : String)
       (calls : List (List String)),
       env.signal = none →
       determineFileFormat p = f → f ≠ "" →
       env.mkdirTemp = Except.ok dir →
       processInputFiles env.glob env.stat p f = Except.ok fn →
       createTemporaryTable env.exec fn dir f strict = (none, calls) →
       executeCommand env.exec (interactiveCmd dir) = none →
       exitCodes (fullRun env p strict) = [0]) ∧
    (∀ (env : Env) (p : String) (strict : Bool), determineFileFormat p = "" →
       exitCodes (fullRun env p strict) = [1]) ∧
    (∀ (env : Env) (p f : String) (strict : Bool) (dir e : String),
       determineFileFormat p = f → f ≠ "" →
       env.mkdirTemp = Except.ok dir →
       processInputFiles env.glob env.stat p f = Except.error e →
       exitCodes (fullRun env p strict) = [1]) ∧
    (∀ (env : Env) (p f : String) (strict : Bool) (dir fn e : String)
       (calls : List (List String)),
       determineFileFormat p = f → f ≠ "" →
       env.mkdirTemp = Except.ok dir →
       processInputFiles env.glob env.stat p f = Except.ok fn →
       createTemporaryTable env.exec fn dir f strict = (some e, calls) →
       exitCodes (fullRun env p strict) = [1]) ∧
    (∀ (env : Env) (p f : String) (strict : Bool) (dir fn e : String)
       (calls : List (List String)),
       determineFileFormat p = f → f ≠ "" →
       env.mkdirTemp = Except.ok dir →
       processInputFiles env.glob env.stat p f = Except.ok fn →
       createTemporaryTable env.exec fn dir f strict = (none, calls) →
       executeCommand env.exec (interactiveCmd dir) = some e →
       exitCodes (fullRun env p strict) = [1]) ∧
    (∀ (env : Env) (p f : String) (strict : Bool) (dir fn : String)
       (calls : List (List String)) (sig : Nat),
       env.signal = some sig →
       determineFileFormat p = f → f ≠ "" →
       env.mkdirTemp = Except.ok dir →
       processInputFiles env.glob env.stat p f = Except.ok fn →
       createTemporaryTable env.exec fn dir f strict = (none, calls) →
       executeCommand env.exec (interactiveCmd dir) = none →
       fullRun env p strict =
         Event.createTempDir dir ::
           (calls.map Event.execCall ++
             (Event.execCall (interactiveCmd dir) ::
               [Event.removeAllTempDir dir,
                Event.stderrLine ("Cleanup completed, exiting"),
                Event.exitProcess 130]))) := by
  refine ⟨?_, ?_, ?_, ?_, ?_, ?_⟩
  · intro env p f strict dir fn calls hsig hf hne hmk hpi hct hex
    have hrc := runCommand_success env p f strict dir fn calls hf hne hmk hpi hct hex
    simp [fullRun, hrc, hsig, signalCleanup, hasExit, isExit, hasExit_execCalls,
      List.any_append, exitCodes, exitCodes_append, exitCodes_execCalls, exitCodeOf]
  · intro env p strict h
    have hrc := runCommand_unsupported env p strict h
    simp [fullRun, hrc, exitWithError, hasExit, isExit, exitCodes, exitCodeOf]
  · intro env p f strict dir e hf hne hmk hpi
    have hrc := runCommand_resolveFail env p f strict dir e hf hne hmk hpi
    simp [fullRun, hrc, exitWithError, hasExit, isExit, exitCodes, exitCodeOf]
  · intro env p f strict dir fn e calls hf hne hmk hpi hct
    have hrc := runCommand_loadFail env p f strict dir fn e calls hf hne hmk hpi hct
    simp [fullRun, hrc, exitWithError, hasExit, isExit, hasExit_execCalls,
      List.any_append, exitCodes, exitCodes_append, exitCodes_execCalls, exitCodeOf]
  · intro env p f strict dir fn e calls hf hne hmk hpi hct hex
    have hrc := runCommand_launchFail env p f strict dir fn e calls hf hne hmk hpi hct hex
    simp [fullRun, hrc, exitWithError, hasExit, isExit, hasExit_execCalls,
      List.any_append, exitCodes, exitCodes_append, exitCodes_execCalls, exitCodeOf]
  · intro env p f strict dir fn calls sig hsig hf hne hmk hpi hct hex
    have hrc := runCommand_success env p f strict dir fn calls hf hne hmk hpi hct hex
    simp [fullRun, hrc, hsig, signalCleanup, hasExit, isExit, hasExit_execCalls,
      List.any_append]

/-- Witness for C3: the interrupt run exits 130 after the removal event, a
run on an unsupported extension exits 1, and the successful signal-free run
exits 0, each at a concrete environment. -/
theorem exit_codes_spec_witness :
    fullRun envInterrupt "data.parquet" false =
      Event.createTempDir ("/tmp/dpi123") ::
        ([loadCmd ("/tmp/dpi123") (parquetQuery (quotePath ("data.parquet")))].map
            Event.execCall ++
          (Event.execCall (interactiveCmd ("/tmp/dpi123")) ::
            [Event.removeAllTempDir ("/tmp/dpi123"),
             Event.stderrLine ("Cleanup completed, exiting"),
             Event.exitProcess 130])) ∧
    exitCodes (fullRun envMissingCsv "nofile.xyz" false) = [1] :=
  ⟨exit_codes_spec.2.2.2.2.2 envInterrupt "data.parquet" Parquet false
      ("/tmp/dpi123") (quotePath ("data.parquet"))
      [loadCmd ("/tmp/dpi123") (parquetQuery (quotePath ("data.parquet")))] 2
      rfl (by decide) (by decide) rfl rfl rfl rfl,
   exit_codes_spec.2.1 envMissingCsv "nofile.xyz" false (by decide)⟩

/-- Claim C5: for the glob-capable Parquet format, a pattern matching one or
more files resolves to exactly those files, each individually quoted, joined
by commas in expansion order; a pattern matching zero files fails with the
no-match error; an invalid pattern fails with the bad-pattern error; and a
successful resolution always comes from a non-empty match list. -/
theorem resolve_parquet_spec :
    (∀ (glob : String → Except Unit (List String)) (stat : String → StatResult)
       (pattern : String) (files : List String),
       glob pattern = Except.ok files → files ≠ [] →
       processInputFiles glob stat pattern Parquet =
         Except.ok (String.intercalate "," (files.map quotePath))) ∧
    (∀ (glob : String → Except Unit (List String)) (stat : String → StatResult)
       (pattern : String),
       glob pattern = Except.ok [] →
       processInputFiles glob stat pattern Parquet =
         Except.error ("no Parquet files found matching pattern: " ++ pattern)) ∧
    (∀ (glob : String → Except Unit (List String)) (stat : String → StatResult)
       (pattern : String) (e : Unit),
       glob pattern = Except.error e →
       processInputFiles glob stat pattern Parquet =
         Except.error (badPatternMsg pattern)) ∧
    (∀ (glob : String → Except Unit (List String)) (stat : String → StatResult)
       (pattern s : String),
       processInputFiles glob stat pattern Parquet = Except.ok s →
       ∃ files : List String, glob pattern = Except.ok files ∧ files ≠ [] ∧
         s = String.intercalate "," (files.map quotePath)) := by
  refine ⟨?_, ?_, ?_, ?_⟩
  · intro glob stat pattern files hg hne
    simp [processInputFiles, findParquetFiles, hg, List.length_eq_zero, hne]
  · intro glob stat pattern hg
    simp [processInputFiles, findParquetFiles, hg]
  · intro glob stat pattern e hg
    simp [processInputFiles, findParquetFiles, hg]
  · intro glob stat pattern s hs
    cases hg : glob pattern with
    | error e => simp [processInputFiles, findParquetFiles, hg] at hs
    | ok files =>
      by_cases hlen : files.length = 0
      · simp [processInputFiles, findParquetFiles, hg, hlen] at hs
      · refine ⟨files, rfl, by simpa [List.length_eq_zero] using hlen, ?_⟩
        simp [processInputFiles, findParquetFiles, hg, hlen] at hs
        exact hs.symm

/-- Witness for C5: a two-match pattern resolves to the two quoted paths in
expansion order; an empty expansion and a bad pattern produce the two error
messages. -/
theorem resolve_parquet_spec_witness :
    processInputFiles (fun _ => Except.ok (["a.parquet", "b.parquet"]))
        (fun _ => StatResult.ok) "*.parquet" Parquet =
      Except.ok (String.intercalate ","
        (["a.parquet", "b.parquet"].map quotePath)) ∧
    processInputFiles (fun _ => Except.ok []) (fun _ => StatResult.ok)
        "*.parquet" Parquet =
      Except.error ("no Parquet files found matching pattern: *.parquet") ∧
    processInputFiles (fun _ => Except.error ()) (fun _ => StatResult.ok)
        "[" Parquet = Except.error (badPatternMsg ("[")) :=
  ⟨resolve_parquet_spec.1 (fun _ => Except.ok (["a.parquet", "b.parquet"]))
      (fun _ => StatResult.ok) "*.parquet" ["a.parquet", "b.parquet"] rfl (by decide),
   resolve_parquet_spec.2.1 (fun _ => Except.ok []) (fun _ => StatResult.ok)
      "*.parquet" rfl,
   resolve_parquet_spec.2.2.1 (fun _ => Except.error ()) (fun _ => StatResult.ok)
      "[" () rfl⟩

/-- Claim C6: for the non-glob CSV format, a path whose stat succeeds
resolves to the single-element set holding that path quoted; a path whose
stat reports does-not-exist fails with the not-found error; and no pattern
expansion happens — the result never depends on the glob expander. -/
theorem resolve_csv_spec :
    (∀ (glob : String → Except Unit (List String)) (stat : String → StatResult)
       (p : String), stat p = StatResult.ok →
       processInputFiles glob stat p CSV = Except.ok (quotePath p)) ∧
    (∀ (glob : String → Except Unit (List String)) (stat : String → StatResult)
       (p : String), stat p = StatResult.errNotExist →
       processInputFiles glob stat p CSV =
         Except.error ("file does not exist: " ++ p)) ∧
    (∀ (glob glob2 : String → Except Unit (List String)) (stat : String → StatResult)
       (p : String),
       processInputFiles glob stat p CSV = processInputFiles glob2 stat p CSV) := by
  refine ⟨?_, ?_, ?_⟩
  · intro glob stat p h
    simp [processInputFiles, CSV, Parquet, fileExists, goIsNotExist, h]
  · intro glob stat p h
    simp [processInputFiles, CSV, Parquet, fileExists, goIsNotExist, h]
  · intro glob glob2 stat p
    simp [processInputFiles, CSV, Parquet]

/-- Witness for C6 at concrete inputs: an existing data.csv resolves to its
quoted singleton, a missing one to the not-found error. -/
theorem resolve_csv_spec_witness :
    processInputFiles (fun _ => Except.ok []) (fun _ => StatResult.ok)
        "data.csv" CSV = Except.ok (quotePath ("data.csv")) ∧
    processInputFiles (fun _ => Except.ok []) (fun _ => StatResult.errNotExist)
        "missing.csv" CSV = Except.error ("file does not exist: missing.csv") :=
  ⟨resolve_csv_spec.1 (fun _ => Except.ok []) (fun _ => StatResult.ok) "data.csv" rfl,
   by
    have h := resolve_csv_spec.2.1 (fun _ => Except.ok [])
      (fun _ => StatResult.errNotExist) "missing.csv" rfl
    simpa using h⟩

/-- Claim C7: materialization builds exactly one load statement — read_parquet
over the resolved list for Parquet, read_csv with the strict_mode boolean for
CSV, both with the fixed table name constant — and executes it exactly once
as a single one-shot subprocess against the fresh database file
tempDir/tmp.duckdb passed as a command argument; a nonzero exit or a spawn
failure (both surfaced by runResult) becomes a load error that aborts the
whole run with exit 1 and no retry: the full trace holds exactly one
subprocess call. -/
theorem materialize_spec :
    (∀ (exec : List String → ExecResult) (fn dir : String) (strict : Bool),
       createTemporaryTable exec fn dir Parquet strict =
         (Option.map (fun e => "failed to create temporary table: " ++ e)
            (runResult (exec (loadCmd dir (parquetQuery fn)))),
          [loadCmd dir (parquetQuery fn)])) ∧
    (∀ (exec : List String → ExecResult) (fn dir : String) (strict : Bool),
       createTemporaryTable exec fn dir CSV strict =
         (Option.map (fun e => "failed to create temporary table: " ++ e)
            (runResult (exec (loadCmd dir (csvQuery fn strict)))),
          [loadCmd dir (csvQuery fn strict)])) ∧
    (∀ (fn dir : String) (strict : Bool),
       loadCmd dir (csvQuery fn strict) =
         ["duckdb", dir ++ "/" ++ "tmp.duckdb", "-c",
          "CREATE TABLE " ++ TableName ++ " AS SELECT * FROM read_csv(" ++ fn ++
            ", strict_mode=" ++ goBoolString strict ++ ");"]) ∧
    (∀ (env : Env) (p : String) (strict : Bool) (dir fn e : String),
       determineFileFormat p = Parquet →
       env.mkdirTemp = Except.ok dir →
       processInputFiles env.glob env.stat p Parquet = Except.ok fn →
       runResult (env.exec (loadCmd dir (parquetQuery fn))) = some e →
       fullRun env p strict =
         [Event.createTempDir dir,
          Event.execCall (loadCmd dir (parquetQuery fn)),
          Event.stderrLine
            ("Error: Creating temporary table failed: failed to create temporary table: "
              ++ e),
          Event.exitProcess 1] ∧
       execArgvs (fullRun env p strict) = [loadCmd dir (parquetQuery fn)]) := by
  refine ⟨createTemporaryTable_parquet, createTemporaryTable_csv,
          fun _ _ _ => rfl, ?_⟩
  intro env p strict dir fn e hf hmk hpi hres
  have hct := createTemporaryTable_parquet env.exec fn dir strict
  rw [hres] at hct
  have hrc := runCommand_loadFail env p Parquet strict dir fn
    ("failed to create temporary table: " ++ e)
    [loadCmd dir (parquetQuery fn)] hf (by decide) hmk hpi (by simpa using hct)
  constructor
  · simp only [fullRun, hrc, exitWithError, hasExit, isExit, List.map_cons, List.map_nil,
      List.any_cons, List.any_nil, List.any_append, Bool.false_or, Bool.or_false,
      Bool.or_true, if_true, List.cons_append, List.nil_append]
    rw [← String.append_assoc, ← String.append_assoc]
    rfl
  · simp [hrc, execArgvs, fullRun, hasExit, isExit, exitWithError, argvOf]

/-- Witness for C7: the failing-materialization run on data.parquet produces
exactly the one load invocation with the read_parquet statement and aborts
with exit 1. -/
theorem materialize_spec_witness :
    fullRun envLoadFail "data.parquet" true =
      [Event.createTempDir ("/tmp/dpi123"),
       Event.execCall (loadCmd ("/tmp/dpi123") (parquetQuery (quotePath ("data.parquet")))),
       Event.stderrLine
         ("Error: Creating temporary table failed: failed to create temporary table: exit status 1"),
       Event.exitProcess 1] ∧
    execArgvs (fullRun envLoadFail "data.parquet" true) =
      [loadCmd ("/tmp/dpi123") (parquetQuery (quotePath ("data.parquet")))] :=
  (materialize_spec.2.2.2 envLoadFail "data.parquet" true ("/tmp/dpi123")
    (quotePath ("data.parquet")) ("exit status 1") (by decide) rfl rfl rfl)

theorem listenerStep_frozen (s : SignalState) (hw : s.waiting = false) (sig : Nat) :
    listenerStep s sig = (s, []) := by
  simp [listenerStep, hw]

theorem runListenerFrom_frozen (s : SignalState) (hw : s.waiting = false)
    (sigs : List Nat) : runListenerFrom s sigs = (s, []) := by
  induction sigs with
  | nil => rfl
  | cons a l ih => simp [runListenerFrom, listenerStep_frozen s hw, ih]

theorem statesFrom_frozen (s : SignalState) (hw : s.waiting = false)
    (sigs : List Nat) : statesFrom s sigs = List.replicate (sigs.length + 1) s := by
  induction sigs with
  | nil => rfl
  | cons a l ih =>
    simp [statesFrom, listenerStep_frozen s hw, ih, List.replicate_succ]

theorem statesFrom_starts (s : SignalState) (sigs : List Nat) :
    ∃ t, statesFrom s sigs = s :: t := by
  cases sigs with
  | nil => exact ⟨[], rfl⟩
  | cons a l => exact ⟨_, rfl⟩

theorem risingTransitions_replicate (n : Nat) (s : SignalState) :
    risingTransitions (List.replicate n s) = 0 := by
  induction n with
  | zero => rfl
  | succ m ih =>
    cases m with
    | zero => rfl
    | succ k =>
      rw [List.replicate_succ, List.replicate_succ]
      rw [List.replicate_succ] at ih
      simp only [risingTransitions, ih]
      cases h : s.received <;> simp [h]

theorem fallingTransitions_statesFrom (s : SignalState) (sigs : List Nat) :
    fallingTransitions (statesFrom s sigs) = 0 := by
  induction sigs generalizing s with
  | nil => rfl
  | cons a l ih =>
    obtain ⟨t, ht⟩ := statesFrom_starts (listenerStep s a).1 l
    have hrest : fallingTransitions ((listenerStep s a).1 :: t) = 0 := by
      rw [← ht]; exact ih (listenerStep s a).1
    show fallingTransitions (s :: statesFrom (listenerStep s a).1 l) = 0
    rw [ht]
    simp only [fallingTransitions, hrest, Nat.add_zero]
    by_cases hw : s.waiting = true
    · simp [listenerStep, hw]
    · have hw2 : s.waiting = false := by simpa using hw
      simp [listenerStep, hw2]

/-- Claim C8: the shared flag starts Idle; on the first arrival of any
registered signal it transitions to SignalReceived exactly once and the
listener emits the notice and stops; across any arrival sequence the flag
never transitions back to Idle; and the listener never emits a process exit
(it does not force an exit). -/
theorem signal_listener_spec :
    initialSignalState.received = false ∧
    (∀ (sig : Nat) (rest : List Nat),
       (runListener (sig :: rest)).1.received = true ∧
       (runListener (sig :: rest)).2 = [Event.stderrLine (signalNotice sig)] ∧
       risingTransitions (listenerStates (sig :: rest)) = 1) ∧
    (∀ sigs : List Nat, fallingTransitions (listenerStates sigs) = 0) ∧
    (∀ sigs : List Nat, hasExit (runListener sigs).2 = false) := by
  refine ⟨rfl, ?_, fun sigs => fallingTransitions_statesFrom _ sigs, ?_⟩
  · intro sig rest
    have hfroz := runListenerFrom_frozen (⟨true, false⟩ : SignalState) rfl rest
    have hstates := statesFrom_frozen (⟨true, false⟩ : SignalState) rfl rest
    refine ⟨?_, ?_, ?_⟩
    · simp [runListener, runListenerFrom, listenerStep, initialSignalState, hfroz]
    · simp [runListener, runListenerFrom, listenerStep, initialSignalState, hfroz]
    · show risingTransitions (initialSignalState ::
        statesFrom (listenerStep initialSignalState sig).1 rest) = 1
      have hstep : (listenerStep initialSignalState sig).1 = ⟨true, false⟩ := rfl
      rw [hstep, hstates, List.replicate_succ]
      simp only [risingTransitions]
      rw [← List.replicate_succ, risingTransitions_replicate]
      simp [initialSignalState]
  · intro sigs
    cases sigs with
    | nil => rfl
    | cons a l =>
      have hfroz := runListenerFrom_frozen (⟨true, false⟩ : SignalState) rfl l
      simp [runListener, runListenerFrom, listenerStep, initialSignalState, hfroz,
        hasExit, isExit]

theorem data_append (s t : String) : (s ++ t).data = s.data ++ t.data := rfl

theorem quotePath_data (p : String) :
    (quotePath p).data = quoteChar :: (p.data ++ [quoteChar]) := by
  show ((sq ++ p) ++ sq).data = quoteChar :: (p.data ++ [quoteChar])
  rw [data_append, data_append]
  rfl

theorem sqlEscape_length_le (l : List Char) : l.length ≤ (sqlEscape l).length := by
  induction l with
  | nil => exact Nat.le_refl 0
  | cons c rest ih =>
    by_cases hc : c = quoteChar <;> simp [sqlEscape, hc] <;> omega

theorem sqlEscape_length_lt (l : List Char) (h : quoteChar ∈ l) :
    l.length < (sqlEscape l).length := by
  induction l with
  | nil => cases h
  | cons c rest ih =>
    by_cases hc : c = quoteChar
    · have := sqlEscape_length_le rest
      simp [sqlEscape, hc]
      omega
    · have hmem : quoteChar ∈ rest := by
        cases h with
        | head => exact absurd rfl hc
        | tail _ hm => exact hm
      have := ih hmem
      simp [sqlEscape, hc]
      omega

/-- Claim C9: resolution quotes each path verbatim — the quoted fragment for
path p is exactly the three-part concatenation of a quote, p, and a quote,
with no escaping — so for a path containing a single quote, the resulting
FileNameString does not contain the correctly delimited quoted literal of
that path (the literal with its embedded quotes doubled), and the verbatim
fragment of such a matched file is never that correct literal. -/
theorem quoting_verbatim_no_escape :
    (∀ (glob : String → Except Unit (List String)) (stat : String → StatResult)
       (p : String), goIsNotExist (stat p) = false →
       processInputFiles glob stat p CSV = Except.ok (sq ++ p ++ sq)) ∧
    (∀ (glob : String → Except Unit (List String)) (stat : String → StatResult)
       (p fns : String), quoteChar ∈ p.data →
       processInputFiles glob stat p CSV = Except.ok fns →
       ¬ (sqlQuotedLiteral p <:+: fns.data)) ∧
    (∀ f : String, quoteChar ∈ f.data → (quotePath f).data ≠ sqlQuotedLiteral f) := by
  refine ⟨?_, ?_, ?_⟩
  · intro glob stat p h
    simp [processInputFiles, CSV, Parquet, fileExists, h, quotePath]
  · intro glob stat p fns hq hok
    have hfns : fns = quotePath p := by
      by_cases hex : goIsNotExist (stat p) = true
      · simp [processInputFiles, CSV, Parquet, fileExists, hex] at hok
      · have hex2 : goIsNotExist (stat p) = false := by simpa using hex
        simp [processInputFiles, CSV, Parquet, fileExists, hex2] at hok
        exact hok.symm
    intro hinf
    have hlen := List.IsInfix.length_le hinf
    have h1 : (sqlQuotedLiteral p).length = (sqlEscape p.data).length + 2 := by
      simp [sqlQuotedLiteral]
    have h2 : fns.data.length = p.data.length + 2 := by
      rw [hfns, quotePath_data]
      simp
    have h3 := sqlEscape_length_lt p.data hq
    omega
  · intro f hq heq
    have hlen := congrArg List.length heq
    rw [quotePath_data] at hlen
    have h1 : (sqlQuotedLiteral f).length = (sqlEscape f.data).length + 2 := by
      simp [sqlQuotedLiteral]
    have h3 := sqlEscape_length_lt f.data hq
    have h4 : f.data.length = f.length := rfl
    simp at hlen
    omega

/-- Witness for C9: the existing path data.csv resolves to the verbatim
three-part concatenation, and for the one-character path consisting of a
single quote the FileNameString does not contain its correct SQL literal. -/
theorem quoting_verbatim_no_escape_witness :
    processInputFiles (fun _ => Except.ok []) (fun _ => StatResult.ok)
        "data.csv" CSV = Except.ok (sq ++ "data.csv" ++ sq) ∧
    ¬ (sqlQuotedLiteral sq <:+: (quotePath sq).data) :=
  ⟨quoting_verbatim_no_escape.1 (fun _ => Except.ok []) (fun _ => StatResult.ok)
      "data.csv" rfl,
   quoting_verbatim_no_escape.2.1 (fun _ => Except.ok []) (fun _ => StatResult.ok)
      sq (quotePath sq) (by decide) rfl⟩

/-- Claim C10: the existence check returns false exactly when stat reports
does-not-exist; for any other stat outcome (success or a different failure
such as permission denied) it returns true, so for the CSV format the
not-found error is produced if and only if stat fails with does-not-exist,
and a path whose stat fails for any other reason is resolved as existing. -/
theorem fileExists_notExist_only :
    (∀ (stat : String → StatResult) (p : String),
       fileExists stat p = false ↔ stat p = StatResult.errNotExist) ∧
    (∀ (glob : String → Except Unit (List String)) (stat : String → StatResult)
       (p : String), stat p = StatResult.errOther →
       processInputFiles glob stat p CSV = Except.ok (quotePath p)) ∧
    (∀ (glob : String → Except Unit (List String)) (stat : String → StatResult)
       (p : String),
       (processInputFiles glob stat p CSV =
          Except.error ("file does not exist: " ++ p)) ↔
       stat p = StatResult.errNotExist) := by
  refine ⟨?_, ?_, ?_⟩
  · intro stat p
    cases h : stat p <;> simp [fileExists, goIsNotExist, h]
  · intro glob stat p h
    simp [processInputFiles, CSV, Parquet, fileExists, goIsNotExist, h]
  · intro glob stat p
    constructor
    · intro h
      cases hs : stat p
      · simp [processInputFiles, CSV, Parquet, fileExists, goIsNotExist, hs] at h
      · rfl
      · simp [processInputFiles, CSV, Parquet, fileExists, goIsNotExist, hs] at h
    · intro hs
      simp [processInputFiles, CSV, Parquet, fileExists, goIsNotExist, hs]

/-- Witness for C10: a path whose stat fails with a permission-style error is
resolved as existing, and the not-found error appears exactly for the
does-not-exist outcome. -/
theorem fileExists_notExist_only_witness :
    processInputFiles (fun _ => Except.ok []) (fun _ => StatResult.errOther)
        "locked.csv" CSV = Except.ok (quotePath ("locked.csv")) :=
  fileExists_notExist_only.2.1 (fun _ => Except.ok [])
    (fun _ => StatResult.errOther) "locked.csv" rfl

end Dpi
